import Mathlib

/-!
Shallow embedding of the alp interpreter's tree-walking evaluator
(package evaluator of tomsharratt/alp) together with the runtime
object and environment model it uses.

Modelling conventions, chosen to track the Go source faithfully:
* Go interface values that may be nil are embedded as `Option Obj`
  (`none` is the nil interface value).
* Go runtime panics that the evaluator can actually trigger (nil
  dereference, out-of-range slice indexing, integer division by zero)
  are the distinct outcome `Res.panicked`.
* The `context.Context` cancellation signal is a Boolean read at the
  start of every evaluation step, exactly where the source calls
  `ctx.Err()`; the Go `(object.Object, error)` return pair becomes the
  `Res` sum below (`ok` for a nil error, `cancelled` for a non-nil one).
* Pointer identity of heap-allocated runtime objects (Go `==` on
  interface values) is modelled by tagging every allocation with a
  fresh numeric id drawn from the evaluation state; `TRUE`, `FALSE`
  and `NULL` are the shared singletons and are identified by value.
* Evaluation recursion is bounded by explicit fuel; running out of
  fuel is the outcome `Res.diverged`, a modelling artefact with no Go
  counterpart (the Go evaluator just recurses).
* `int64` arithmetic is modelled on `Int` with an explicit wrap-around
  `wrap64` at every arithmetic instruction.
-/

namespace Alp

mutual
/-- Statements and expressions of the ast package, as the evaluator
consumes them (the ast sources are not part of the snapshot; the
shapes follow the evaluator's uses and the spec's data model §3). -/
inductive Expr where
  | ident (name : String)
  | intLit (value : Int)
  | strLit (value : String)
  | boolLit (value : Bool)
  | arrayLit (elems : List Expr)
  | hashLit (pairs : List (Expr × Expr))
  | indexExpr (left index : Expr)
  | prefixExpr (op : String) (right : Expr)
  | infixExpr (op : String) (left right : Expr)
  | ifExpr (condition : Expr) (consequence : List Stmt)
      (alternative : Option (List Stmt))
  | funcLit (params : List String) (body : List Stmt)
  | callExpr (func : Expr) (args : List Expr)

inductive Stmt where
  | letStmt (name : String) (value : Expr)
  | returnStmt (value : Expr)
  | exprStmt (e : Expr)
end

/-- The node sum the evaluator dispatches on: a whole program, a single
statement, a block statement (function or if body) or an expression. -/
inductive Node where
  | prog (stmts : List Stmt)
  | block (stmts : List Stmt)
  | stmt (s : Stmt)
  | expr (e : Expr)

/-- Modelled from the spec: hash keys are derived from the value of a
hashable object (integer, boolean or string); the object package that
defines HashKey is not part of the snapshot (spec §3). -/
inductive HKey where
  | int (v : Int)
  | bool (v : Bool)
  | str (v : String)

/-- Runtime objects of the object package as the evaluator creates and
inspects them.  The `id` field on heap-allocated variants models the
Go pointer: each allocation draws a fresh id, so id equality is
pointer equality.  Booleans and null are the process-wide singletons
and carry no id.  Array elements, hash values and return values embed
`Option Obj` because the Go evaluator can store a nil interface value
there.  `error` carries no id: the evaluator intercepts every error
object with `isError` before it could ever be compared by identity. -/
inductive Obj where
  | integer (id : Nat) (value : Int)
  | string (id : Nat) (value : String)
  | boolean (value : Bool)
  | null
  | array (id : Nat) (elems : List (Option Obj))
  | hash (id : Nat) (pairs : List (HKey × Option Obj × Option Obj))
  | function (id : Nat) (params : List String) (body : List Stmt) (envRef : Nat)
  | returnValue (id : Nat) (value : Option Obj)
  | error (message : String)

/-- Modelled from the spec: the kind tags of the object package, used
verbatim inside the evaluator's error messages. -/
def Obj.typeTag : Obj → String
  | .integer .. => "INTEGER"
  | .string .. => "STRING"
  | .boolean _ => "BOOLEAN"
  | .null => "NULL"
  | .array .. => "ARRAY"
  | .hash .. => "HASH"
  | .function .. => "FUNCTION"
  | .returnValue .. => "RETURN_VALUE"
  | .error _ => "ERROR"

/-- Modelled from the spec: one Environment frame — a mutable mapping
from name to bound object plus an optional reference to an enclosing
frame (spec §3, §4.3).  Frames live in `State.envs` and are referred
to by index, which models the shared mutable ownership the spec
describes. -/
structure Env where
  table : List (String × Option Obj)
  parent : Option Nat

/-- The mutable store threaded through evaluation: all Environment
frames ever created plus the allocation counter for fresh object ids. -/
structure State where
  envs : List Env
  nextId : Nat

def State.fresh (st : State) : State × Nat :=
  ({ st with nextId := st.nextId + 1 }, st.nextId)

/-- Modelled from the spec: Environment.Set writes into the local frame
only, never an ancestor (spec §3, §4.3). -/
def State.envSet (st : State) (ref : Nat) (name : String) (v : Option Obj) :
    State :=
  match st.envs.get? ref with
  | some e =>
    { st with envs := st.envs.set ref { e with table := (name, v) :: e.table } }
  | none => st

/-- Modelled from the spec: NewEnclosedEnvironment constructs a child
frame referencing the parent (spec §4.3). -/
def State.newEnclosed (st : State) (parent : Nat) : State × Nat :=
  ({ st with envs := st.envs ++ [⟨[], some parent⟩] }, st.envs.length)

def lookupTable : List (String × Option Obj) → String → Option (Option Obj)
  | [], _ => none
  | (n, v) :: rest, name => if n = name then some v else lookupTable rest name

/-- Modelled from the spec: Environment.Get walks outward through the
parent chain until found or exhausted (spec §4.3).  `gas` bounds the
walk; call sites pass the number of frames, which bounds every parent
chain because a child frame is always created after its parent. -/
def envLookup (st : State) : Nat → Nat → String → Option (Option Obj)
  | 0, _, _ => none
  | gas + 1, ref, name =>
    match st.envs.get? ref with
    | none => none
    | some e =>
      match lookupTable e.table name with
      | some v => some v
      | none =>
        match e.parent with
        | some p => envLookup st gas p name
        | none => none

def NULL : Obj := .null
def TRUE : Obj := .boolean true
def FALSE : Obj := .boolean false

def nativeBoolToBooleanObject (input : Bool) : Obj :=
  if input then TRUE else FALSE

def newError (message : String) : Obj := .error message

def isError : Option Obj → Bool
  | some (.error _) => true
  | _ => false

def isTruthy : Option Obj → Bool
  | some .null => false
  | some (.boolean b) => b
  | _ => true

/-- Go `==` on two non-nil interface values: true iff same dynamic type
and same pointer (same allocation id); booleans and null are the shared
singletons, so their identity is their value.  The error/error case is
unreachable from the evaluator (errors are intercepted by `isError`
before any comparison), so the catch-all covers it. -/
def refEq : Obj → Obj → Bool
  | .integer i _, .integer j _ => i == j
  | .string i _, .string j _ => i == j
  | .boolean a, .boolean b => a == b
  | .null, .null => true
  | .array i _, .array j _ => i == j
  | .hash i _, .hash j _ => i == j
  | .function i _ _ _, .function j _ _ _ => i == j
  | .returnValue i _, .returnValue j _ => i == j
  | _, _ => false

/-- Go `==` on possibly-nil interface values: nil equals only nil. -/
def ptrEq : Option Obj → Option Obj → Bool
  | none, none => true
  | some a, some b => refEq a b
  | _, _ => false

/-- Wrap-around of signed 64-bit machine arithmetic. -/
def wrap64 (x : Int) : Int := (x + 2 ^ 63) % 2 ^ 64 - 2 ^ 63

/-- Result of one evaluator call: `ok` is the Go `(value, nil)` return
(the value itself may be the nil interface), `cancelled` is the Go
`(nil, err)` return from a cancelled context, `panicked` is a Go
runtime panic, and `diverged` means the modelling fuel ran out. -/
inductive Res (α : Type) where
  | ok (val : α) (st : State)
  | cancelled
  | panicked
  | diverged

abbrev Outcome := Res (Option Obj)

/-- Modelled from the spec: the built-in function table (spec §2 item 6)
lives in an evaluator file that is not part of the snapshot; no claim
exercises a built-in, so the table is modelled as empty. -/
def builtins (_name : String) : Option Obj := none

def evalIdentifier (st : State) (ref : Nat) (name : String) : Option Obj :=
  match envLookup st st.envs.length ref name with
  | some v => v
  | none =>
    match builtins name with
    | some b => some b
    | none => some (newError ("identifier not found: " ++ name))

def evalBangOperatorExpression (right : Option Obj) : Obj :=
  match right with
  | some (.boolean true) => FALSE
  | some (.boolean false) => TRUE
  | some .null => TRUE
  | _ => FALSE

/-- Unary minus; a nil operand panics (`right.Type()` on a nil
interface), a non-integer operand is an unknown-operator error, and an
integer operand allocates a fresh Integer with the wrapped negation. -/
def evalMinusPrefixOperatorExpression (right : Option Obj) (st : State) :
    Outcome :=
  match right with
  | none => .panicked
  | some rv =>
    if rv.typeTag = "INTEGER" then
      match rv with
      | .integer _ v =>
        let (st1, i) := st.fresh
        .ok (some (.integer i (wrap64 (-v)))) st1
      | _ => .panicked
    else .ok (some (newError ("unknown operator: -" ++ rv.typeTag))) st

def evalPrefixExpression (operator : String) (right : Option Obj)
    (st : State) : Outcome :=
  if operator = "!" then .ok (some (evalBangOperatorExpression right)) st
  else if operator = "-" then evalMinusPrefixOperatorExpression right st
  else
    match right with
    | none => .panicked
    | some rv =>
      .ok (some (newError ("unknown operator: " ++ operator ++ rv.typeTag))) st

/-- Integer/integer infix operators on wrapped 64-bit values; `+ - * /`
allocate a fresh Integer, the comparisons return a shared Boolean
singleton, and division by zero is the Go runtime panic. -/
def evalIntegerInfixExpression (operator : String) (a b : Int) (st : State) :
    Outcome :=
  if operator = "+" then
    let (st1, i) := st.fresh
    .ok (some (.integer i (wrap64 (a + b)))) st1
  else if operator = "-" then
    let (st1, i) := st.fresh
    .ok (some (.integer i (wrap64 (a - b)))) st1
  else if operator = "*" then
    let (st1, i) := st.fresh
    .ok (some (.integer i (wrap64 (a * b)))) st1
  else if operator = "/" then
    if b = 0 then .panicked
    else
      let (st1, i) := st.fresh
      .ok (some (.integer i (wrap64 (Int.tdiv a b)))) st1
  else if operator = "<" then
    .ok (some (nativeBoolToBooleanObject (decide (a < b)))) st
  else if operator = ">" then
    .ok (some (nativeBoolToBooleanObject (decide (b < a)))) st
  else if operator = "==" then
    .ok (some (nativeBoolToBooleanObject (decide (a = b)))) st
  else if operator = "!=" then
    .ok (some (nativeBoolToBooleanObject (!decide (a = b)))) st
  else
    .ok (some (newError
      ("unknown operator: INTEGER " ++ operator ++ " INTEGER"))) st

/-- String/string infix: only `+` (concatenation, a fresh allocation)
is supported, anything else is an unknown-operator error. -/
def evalStringInfixExpression (operator : String) (a b : String)
    (st : State) : Outcome :=
  if operator = "+" then
    let (st1, i) := st.fresh
    .ok (some (.string i (a ++ b))) st1
  else
    .ok (some (newError
      ("unknown operator: STRING " ++ operator ++ " STRING"))) st

/-- The infix dispatch switch, with the source's case order and Go's
short-circuit evaluation of the case conditions.  The first case
(`left.Type()` / `right.Type()`) dereferences nil operands, hence the
panics; the `==`/`!=` cases compare by interface identity and never
dereference; the string case and the final type-mismatch/unknown
cases evaluate `right.Type()` again. -/
def evalInfixExpression (operator : String) (left right : Option Obj)
    (st : State) : Outcome :=
  match left with
  | none => .panicked
  | some lv =>
    if lv.typeTag = "INTEGER" then
      match right with
      | none => .panicked
      | some rv =>
        if rv.typeTag = "INTEGER" then
          match lv, rv with
          | .integer _ a, .integer _ b =>
            evalIntegerInfixExpression operator a b st
          | _, _ => .panicked
        else if operator = "==" then
          .ok (some (nativeBoolToBooleanObject (ptrEq (some lv) (some rv)))) st
        else if operator = "!=" then
          .ok (some (nativeBoolToBooleanObject (!ptrEq (some lv) (some rv)))) st
        else
          .ok (some (newError
            ("type mismatch: INTEGER " ++ operator ++ " " ++ rv.typeTag))) st
    else if operator = "==" then
      .ok (some (nativeBoolToBooleanObject (ptrEq (some lv) right))) st
    else if operator = "!=" then
      .ok (some (nativeBoolToBooleanObject (!ptrEq (some lv) right))) st
    else if lv.typeTag = "STRING" then
      match right with
      | none => .panicked
      | some rv =>
        if rv.typeTag = "STRING" then
          match lv, rv with
          | .string _ a, .string _ b => evalStringInfixExpression operator a b st
          | _, _ => .panicked
        else
          .ok (some (newError
            ("type mismatch: STRING " ++ operator ++ " " ++ rv.typeTag))) st
    else
      match right with
      | none => .panicked
      | some rv =>
        if lv.typeTag = rv.typeTag then
          .ok (some (newError
            ("unknown operator: " ++ lv.typeTag ++ " " ++ operator ++ " "
              ++ rv.typeTag))) st
        else
          .ok (some (newError
            ("type mismatch: " ++ lv.typeTag ++ " " ++ operator ++ " "
              ++ rv.typeTag))) st

/-- Array indexing: out of range (negative, or past the last element)
is NULL; in range returns the stored element (which may be the nil
interface). -/
def evalArrayIndexExpression (elems : List (Option Obj)) (idx : Int)
    (st : State) : Outcome :=
  let mx : Int := (elems.length : Int) - 1
  if idx < 0 ∨ mx < idx then .ok (some NULL) st
  else .ok (elems.getD idx.toNat none) st

def hashableKey : Obj → Option HKey
  | .integer _ v => some (.int v)
  | .boolean b => some (.bool b)
  | .string _ s => some (.str s)
  | _ => none

def hkeyEq : HKey → HKey → Bool
  | .int a, .int b => a == b
  | .bool a, .bool b => a == b
  | .str a, .str b => a == b
  | _, _ => false

def hashFind (pairs : List (HKey × Option Obj × Option Obj)) (k : HKey) :
    Option (Option Obj × Option Obj) :=
  match pairs with
  | [] => none
  | (k', kv, vv) :: rest =>
    if hkeyEq k' k then some (kv, vv) else hashFind rest k

/-- Hash indexing: a nil index panics inside the error formatting
(`index.Type()`), a non-hashable index is an error, a missing key is
NULL, a present key returns the stored value. -/
def evalHashIndexExpression (pairs : List (HKey × Option Obj × Option Obj))
    (index : Option Obj) (st : State) : Outcome :=
  match index with
  | none => .panicked
  | some iv =>
    match hashableKey iv with
    | none => .ok (some (newError ("unusable as hash key: " ++ iv.typeTag))) st
    | some k =>
      match hashFind pairs k with
      | none => .ok (some NULL) st
      | some (_, v) => .ok v st

/-- The index dispatch switch with Go's short-circuit case conditions:
a nil collection always panics on `left.Type()`; an array collection
with a nil index panics on `index.Type()`. -/
def evalIndexExpression (left index : Option Obj) (st : State) : Outcome :=
  match left with
  | none => .panicked
  | some (.array _ elems) =>
    match index with
    | none => .panicked
    | some (.integer _ idx) => evalArrayIndexExpression elems idx st
    | some _ => .ok (some (newError "index operator not supported: ARRAY")) st
  | some (.hash _ pairs) => evalHashIndexExpression pairs index st
  | some lv =>
    .ok (some (newError ("index operator not supported: " ++ lv.typeTag))) st

def unwrapReturnValue : Option Obj → Option Obj
  | some (.returnValue _ v) => v
  | o => o

/-- Parameter binding of applyFunction: walks the parameter list by
position, reading `args[paramIdx]`; a missing argument is the Go
out-of-range panic (`none`). -/
def bindParams (args : List (Option Obj)) (ref : Nat) :
    List String → Nat → State → Option State
  | [], _, st => some st
  | p :: rest, idx, st =>
    match args.get? idx with
    | none => none
    | some a => bindParams args ref rest (idx + 1) (st.envSet ref p a)

def extendFunctionEnv (params : List String) (fnEnvRef : Nat)
    (args : List (Option Obj)) (st : State) : Option (State × Nat) :=
  let (st1, newRef) := st.newEnclosed fnEnvRef
  match bindParams args newRef params 0 st1 with
  | some st2 => some (st2, newRef)
  | none => none

/-- The evalProgram loop: statements in order; a ReturnValue statement
result stops the loop and the program's result is its unwrapped inner
value; an Error statement result stops the loop and propagates as is;
otherwise the last statement's result (initially nil) is the result.
`evalF` is the evaluator at the remaining fuel. -/
def evalProgram (evalF : Node → Nat → State → Outcome) :
    List Stmt → Option Obj → Nat → State → Outcome
  | [], last, _, st => .ok last st
  | s :: rest, _, ref, st =>
    match evalF (.stmt s) ref st with
    | .ok result st1 =>
      match result with
      | some (.returnValue _ v) => .ok v st1
      | some (.error m) => .ok (some (.error m)) st1
      | _ => evalProgram evalF rest result ref st1
    | o => o

/-- The evalBlockStatement loop: like evalProgram but a ReturnValue
statement result propagates unchanged (still wrapped). -/
def evalBlockStatement (evalF : Node → Nat → State → Outcome) :
    List Stmt → Option Obj → Nat → State → Outcome
  | [], last, _, st => .ok last st
  | s :: rest, _, ref, st =>
    match evalF (.stmt s) ref st with
    | .ok result st1 =>
      match result with
      | some (.returnValue i v) => .ok (some (.returnValue i v)) st1
      | some (.error m) => .ok (some (.error m)) st1
      | _ => evalBlockStatement evalF rest result ref st1
    | o => o

/-- The evalExpressions loop: left to right; the first in-language
error aborts and yields the singleton list holding just that error
(callers recognise this shape); otherwise all evaluated values in
order. -/
def evalExpressions (evalF : Node → Nat → State → Outcome) :
    List Expr → Nat → State → Res (List (Option Obj))
  | [], _, st => .ok [] st
  | e :: rest, ref, st =>
    match evalF (.expr e) ref st with
    | .ok v st1 =>
      if isError v then .ok [v] st1
      else
        match evalExpressions evalF rest ref st1 with
        | .ok vs st2 => .ok (v :: vs) st2
        | .cancelled => .cancelled
        | .panicked => .panicked
        | .diverged => .diverged
    | .cancelled => .cancelled
    | .panicked => .panicked
    | .diverged => .diverged

/-- Go map assignment `pairs[hashed] = pair`: replace the entry with
that hash key, or append a new one. -/
def hashInsert (pairs : List (HKey × Option Obj × Option Obj)) (k : HKey)
    (kv vv : Option Obj) : List (HKey × Option Obj × Option Obj) :=
  match pairs with
  | [] => [(k, kv, vv)]
  | (k', kv', vv') :: rest =>
    if hkeyEq k' k then (k, kv, vv) :: rest
    else (k', kv', vv') :: hashInsert rest k kv vv

/-- The evalHashLiteral loop.  The iteration order of the Go AST map is
unspecified; it is modelled as the list order of the embedded literal.
An error key or value propagates as the whole literal's result; a nil
key panics inside the error formatting (`key.Type()`); a non-hashable
key is an error.  At the end a fresh Hash object is allocated. -/
def evalHashPairs (evalF : Node → Nat → State → Outcome) :
    List (Expr × Expr) → List (HKey × Option Obj × Option Obj) → Nat →
    State → Outcome
  | [], acc, _, st =>
    let (st1, i) := st.fresh
    .ok (some (.hash i acc)) st1
  | (ke, ve) :: rest, acc, ref, st =>
    match evalF (.expr ke) ref st with
    | .ok k st1 =>
      if isError k then .ok k st1
      else
        match k with
        | none => .panicked
        | some kv =>
          match hashableKey kv with
          | none =>
            .ok (some (newError ("unusable as hash key: " ++ kv.typeTag))) st1
          | some hk =>
            match evalF (.expr ve) ref st1 with
            | .ok v st2 =>
              if isError v then .ok v st2
              else evalHashPairs evalF rest (hashInsert acc hk k v) ref st2
            | o => o
    | o => o

/-- applyFunction: a closure extends its captured environment with a
fresh child frame, binds parameters positionally (a missing argument
panics), evaluates the body there and unwraps a ReturnValue; a nil
callee panics on `fn.Type()`; any other object is a "not a function"
error.  The Builtin case of the source lives with the built-in table
outside the snapshot and cannot arise with the empty modelled table. -/
def applyFunction (evalF : Node → Nat → State → Outcome) (fn : Option Obj)
    (args : List (Option Obj)) (st : State) : Outcome :=
  match fn with
  | some (.function _ params body fnEnvRef) =>
    match extendFunctionEnv params fnEnvRef args st with
    | none => .panicked
    | some (st1, newRef) =>
      match evalF (.block body) newRef st1 with
      | .ok v st2 => .ok (unwrapReturnValue v) st2
      | o => o
  | some other => .ok (some (newError ("not a function: " ++ other.typeTag))) st
  | none => .panicked

/-- evalIfExpression: evaluate the condition, propagate an error, then
take the consequence if truthy, else the alternative if present, else
NULL.  Both branches run in the same environment frame. -/
def evalIfExpression (evalF : Node → Nat → State → Outcome)
    (condition : Expr) (consequence : List Stmt)
    (alternative : Option (List Stmt)) (ref : Nat) (st : State) : Outcome :=
  match evalF (.expr condition) ref st with
  | .ok condv st1 =>
    if isError condv then .ok condv st1
    else if isTruthy condv then evalF (.block consequence) ref st1
    else
      match alternative with
      | some alt => evalF (.block alt) ref st1
      | none => .ok (some NULL) st1
  | o => o

/-- The evaluator's entry point, mirroring the Go Eval dispatch.  The
cancellation signal is read first, exactly where the source calls
`ctx.Err()`; then one unit of fuel is spent and the node is
dispatched.  Recursive steps run at the remaining fuel. -/
def Eval (cancel : Bool) : Nat → Node → Nat → State → Outcome
  | fuel, node, ref, st =>
    if cancel then .cancelled
    else
      match fuel with
      | 0 => .diverged
      | fuel + 1 =>
        match node with
        | .prog stmts => evalProgram (Eval cancel fuel) stmts none ref st
        | .block stmts => evalBlockStatement (Eval cancel fuel) stmts none ref st
        | .stmt (.returnStmt e) =>
          match Eval cancel fuel (.expr e) ref st with
          | .ok v st1 =>
            if isError v then .ok v st1
            else
              let (st2, i) := st1.fresh
              .ok (some (.returnValue i v)) st2
          | o => o
        | .stmt (.letStmt name e) =>
          match Eval cancel fuel (.expr e) ref st with
          | .ok v st1 =>
            if isError v then .ok v st1
            else .ok none (st1.envSet ref name v)
          | o => o
        | .stmt (.exprStmt e) => Eval cancel fuel (.expr e) ref st
        | .expr (.ident name) => .ok (evalIdentifier st ref name) st
        | .expr (.intLit v) =>
          let (st1, i) := st.fresh
          .ok (some (.integer i v)) st1
        | .expr (.strLit s) =>
          let (st1, i) := st.fresh
          .ok (some (.string i s)) st1
        | .expr (.boolLit b) => .ok (some (nativeBoolToBooleanObject b)) st
        | .expr (.funcLit params body) =>
          let (st1, i) := st.fresh
          .ok (some (.function i params body ref)) st1
        | .expr (.arrayLit elems) =>
          match evalExpressions (Eval cancel fuel) elems ref st with
          | .ok objs st1 =>
            match objs with
            | [v] =>
              if isError v then .ok v st1
              else
                let (st2, i) := st1.fresh
                .ok (some (.array i [v])) st2
            | _ =>
              let (st2, i) := st1.fresh
              .ok (some (.array i objs)) st2
          | .cancelled => .cancelled
          | .panicked => .panicked
          | .diverged => .diverged
        | .expr (.hashLit pairs) => evalHashPairs (Eval cancel fuel) pairs [] ref st
        | .expr (.indexExpr le ie) =>
          match Eval cancel fuel (.expr le) ref st with
          | .ok l st1 =>
            if isError l then .ok l st1
            else
              match Eval cancel fuel (.expr ie) ref st1 with
              | .ok i st2 =>
                if isError i then .ok i st2
                else evalIndexExpression l i st2
              | o => o
          | o => o
        | .expr (.prefixExpr op r) =>
          match Eval cancel fuel (.expr r) ref st with
          | .ok rv st1 =>
            if isError rv then .ok rv st1
            else evalPrefixExpression op rv st1
          | o => o
        | .expr (.infixExpr op l r) =>
          match Eval cancel fuel (.expr l) ref st with
          | .ok lv st1 =>
            if isError lv then .ok lv st1
            else
              match Eval cancel fuel (.expr r) ref st1 with
              | .ok rv st2 =>
                if isError rv then .ok rv st2
                else evalInfixExpression op lv rv st2
              | o => o
          | o => o
        | .expr (.ifExpr c cs alt) =>
          evalIfExpression (Eval cancel fuel) c cs alt ref st
        | .expr (.callExpr fe argEs) =>
          match Eval cancel fuel (.expr fe) ref st with
          | .ok fv st1 =>
            if isError fv then .ok fv st1
            else
              match evalExpressions (Eval cancel fuel) argEs ref st1 with
              | .ok args st2 =>
                match args with
                | [a] =>
                  if isError a then .ok a st2
                  else applyFunction (Eval cancel fuel) fv [a] st2
                | _ => applyFunction (Eval cancel fuel) fv args st2
              | .cancelled => .cancelled
              | .panicked => .panicked
              | .diverged => .diverged
          | o => o

/-- Modelled from the spec: the REPL creates one root environment with
NewEnvironment before evaluating (spec §4.3, repl source); frame 0 is
that root and the allocation counter starts at 0. -/
def initState : State := ⟨[⟨[], none⟩], 0⟩

/-- Observer: the integer payload of a normal outcome, if any. -/
def resultInt : Outcome → Option Int
  | .ok (some (.integer _ n)) _ => some n
  | _ => none

/-- Observer: the kind tag of a normal outcome's object, if any. -/
def resultTag : Outcome → Option String
  | .ok (some o) _ => some o.typeTag
  | _ => none

/-- Observer: the message of a normal outcome that is an Error object. -/
def resultErrMsg : Outcome → Option String
  | .ok (some (.error m)) _ => some m
  | _ => none

/-- Observer: the Boolean payload of a normal outcome, if any. -/
def resultBool : Outcome → Option Bool
  | .ok (some (.boolean b)) _ => some b
  | _ => none

/-- Observer: whether the outcome is a Go runtime panic. -/
def isPanicOutcome : Outcome → Bool
  | .panicked => true
  | _ => false

/-- Observer: the names bound in the root environment frame after an
outcome, newest first. -/
def rootBindingNames : Outcome → Option (List String)
  | .ok _ st => (st.envs.get? 0).map (fun e => e.table.map (·.1))
  | _ => none

/-- The spec's closure test program:
`let newAdder = fn(x) { fn(y) { x + y } }; let addTwo = newAdder(2); addTwo(3);`. -/
def closureProgram : List Stmt :=
  [ .letStmt "newAdder" (.funcLit ["x"]
      [ .exprStmt (.funcLit ["y"]
          [ .exprStmt (.infixExpr "+" (.ident "x") (.ident "y")) ]) ]),
    .letStmt "addTwo" (.callExpr (.ident "newAdder") [.intLit 2]),
    .exprStmt (.callExpr (.ident "addTwo") [.intLit 3]) ]

/-- A call that supplies fewer arguments than parameters:
`let f = fn(x) { x; }; f();`. -/
def missingArgProgram : List Stmt :=
  [ .letStmt "f" (.funcLit ["x"] [ .exprStmt (.ident "x") ]),
    .exprStmt (.callExpr (.ident "f") []) ]

/-- A call that supplies more arguments than parameters:
`let f = fn(x) { x; }; f(1, 2);`. -/
def excessArgProgram : List Stmt :=
  [ .letStmt "f" (.funcLit ["x"] [ .exprStmt (.ident "x") ]),
    .exprStmt (.callExpr (.ident "f") [.intLit 1, .intLit 2]) ]

/-- A let statement whose value expression errors after the consequence
block of an if expression has already bound another name in the same
frame: `let x = if (true) { let y = 1; 1 - "a"; };`. -/
def letAfterSideEffectProgram : List Stmt :=
  [ .letStmt "x" (.ifExpr (.boolLit true)
      [ .letStmt "y" (.intLit 1),
        .exprStmt (.infixExpr "-" (.intLit 1) (.strLit "a")) ] none) ]

/-- Two separately evaluated string literals with equal contents,
compared with `==`: `"a" == "a";`. -/
def stringIdentityProgram : List Stmt :=
  [ .exprStmt (.infixExpr "==" (.strLit "a") (.strLit "a")) ]

/-- A statement result that neither unwinds nor errors: the sequence
loops continue past it. -/
def isNormalResult : Option Obj → Bool
  | some (.returnValue _ _) => false
  | some (.error _) => false
  | _ => true

/-- Modelled from the spec's words for C3: the operator/kind pairs the
spec calls supported — integer arithmetic and comparisons, string
concatenation, and identity `==`/`!=` on every kind (spec §4.2). -/
def operatorSupported (tag op : String) : Bool :=
  if tag = "INTEGER" then
    ["+", "-", "*", "/", "<", ">", "==", "!="].contains op
  else if tag = "STRING" then ["+", "==", "!="].contains op
  else ["==", "!="].contains op

theorem evalStep_funcLit (fuel : Nat) (params : List String)
    (body : List Stmt) (ref : Nat) (st : State) :
    Eval false (fuel + 1) (.expr (.funcLit params body)) ref st =
      .ok (some (.function st.nextId params body ref))
        { st with nextId := st.nextId + 1 } := rfl

theorem evalStep_ifExpr (fuel : Nat) (c : Expr) (cs : List Stmt)
    (alt : Option (List Stmt)) (ref : Nat) (st : State) :
    Eval false (fuel + 1) (.expr (.ifExpr c cs alt)) ref st =
      evalIfExpression (Eval false fuel) c cs alt ref st := rfl

theorem evalStep_letStmt (fuel : Nat) (name : String) (e : Expr)
    (ref : Nat) (st : State) :
    Eval false (fuel + 1) (.stmt (.letStmt name e)) ref st =
      (match Eval false fuel (.expr e) ref st with
       | .ok v st1 =>
         if isError v then .ok v st1 else .ok none (st1.envSet ref name v)
       | o => o) := rfl

theorem evalStep_prog (fuel : Nat) (stmts : List Stmt) (ref : Nat)
    (st : State) :
    Eval false (fuel + 1) (.prog stmts) ref st =
      evalProgram (Eval false fuel) stmts none ref st := rfl

theorem evalStep_block (fuel : Nat) (stmts : List Stmt) (ref : Nat)
    (st : State) :
    Eval false (fuel + 1) (.block stmts) ref st =
      evalBlockStatement (Eval false fuel) stmts none ref st := rfl

theorem set_map_parent :
    ∀ (l : List Env) (i : Nat) (e a : Env), l.get? i = some e →
      a.parent = e.parent → (l.set i a).map Env.parent = l.map Env.parent := by
  intro l
  induction l with
  | nil => intro i e a h _; simp [List.get?] at h
  | cons x xs ih =>
    intro i e a h hp
    cases i with
    | zero =>
      rw [List.get?_cons_zero] at h
      injection h with h
      subst h
      simp [List.set, hp]
    | succ j =>
      rw [List.get?_cons_succ] at h
      simp only [List.set, List.map_cons]
      rw [ih j e a h hp]

theorem envSet_map_parent (st : State) (ref : Nat) (name : String)
    (v : Option Obj) :
    (st.envSet ref name v).envs.map Env.parent = st.envs.map Env.parent := by
  unfold State.envSet
  cases h : st.envs.get? ref with
  | none => rfl
  | some e => exact set_map_parent st.envs ref e _ h rfl

theorem bindParams_map_parent :
    ∀ (params : List String) (args : List (Option Obj)) (ref idx : Nat)
      (st st2 : State), bindParams args ref params idx st = some st2 →
      st2.envs.map Env.parent = st.envs.map Env.parent := by
  intro params
  induction params with
  | nil =>
    intro args ref idx st st2 h
    simp [bindParams] at h
    subst h; rfl
  | cons p rest ih =>
    intro args ref idx st st2 h
    simp only [bindParams] at h
    cases ha : args.get? idx with
    | none => rw [ha] at h; simp at h
    | some a =>
      rw [ha] at h
      have := ih args ref (idx + 1) (st.envSet ref p a) st2 h
      rw [this, envSet_map_parent]

/-- C1: a function literal captures the current environment by
reference (the closure stores the frame index itself, not a copy)
without evaluating the body; a call builds a fresh child frame whose
parent is exactly the captured frame and leaves every existing frame's
parent untouched; and the spec's closure program
`let newAdder = fn(x) { fn(y) { x + y } }; let addTwo = newAdder(2); addTwo(3);`
evaluates to the integer 5. -/
theorem c1_closure_capture_and_call :
    (∀ (fuel : Nat) (params : List String) (body : List Stmt) (ref : Nat)
       (st : State),
       Eval false (fuel + 1) (.expr (.funcLit params body)) ref st =
         .ok (some (.function st.nextId params body ref))
           { st with nextId := st.nextId + 1 })
    ∧ (∀ (params : List String) (fnRef : Nat) (args : List (Option Obj))
         (st st' : State) (newRef : Nat),
         extendFunctionEnv params fnRef args st = some (st', newRef) →
         newRef = st.envs.length ∧
         st'.envs.map Env.parent = st.envs.map Env.parent ++ [some fnRef])
    ∧ resultInt (Eval false 32 (.prog closureProgram) 0 initState) = some 5 := by
  refine ⟨fun fuel params body ref st => rfl, ?_, rfl⟩
  intro params fnRef args st st' newRef h
  have hx : extendFunctionEnv params fnRef args st =
      (match bindParams args st.envs.length params 0
          ⟨st.envs ++ [⟨[], some fnRef⟩], st.nextId⟩ with
       | some st2 => some (st2, st.envs.length)
       | none => none) := rfl
  rw [hx] at h
  cases hb : bindParams args st.envs.length params 0
      ⟨st.envs ++ [⟨[], some fnRef⟩], st.nextId⟩ with
  | none => rw [hb] at h; simp at h
  | some st2 =>
    rw [hb] at h
    simp only [Option.some.injEq, Prod.mk.injEq] at h
    obtain ⟨h1, h2⟩ := h
    refine ⟨h2.symm, ?_⟩
    rw [← h1]
    have := bindParams_map_parent params args st.envs.length 0
      ⟨st.envs ++ [⟨[], some fnRef⟩], st.nextId⟩ st2 hb
    rw [this]
    simp

theorem c1_closure_capture_and_call_witness :
    (1 : Nat) = initState.envs.length ∧
    (⟨[⟨[], none⟩, ⟨[("x", some Obj.null)], some 0⟩], 0⟩ : State).envs.map
        Env.parent = initState.envs.map Env.parent ++ [some 0] :=
  c1_closure_capture_and_call.2.1 ["x"] 0 [some Obj.null] initState
    ⟨[⟨[], none⟩, ⟨[("x", some Obj.null)], some 0⟩], 0⟩ 1 rfl

/-- C5: if the external cancellation signal is already set when Eval is
entered, Eval returns the distinct cancellation outcome — not a normal
result and not an in-language Error object — for every node,
environment, state and fuel, so no recursive step converts the
cancellation into anything else. -/
theorem c5_cancellation :
    ∀ (fuel : Nat) (node : Node) (ref : Nat) (st : State),
      Eval true fuel node ref st = .cancelled := by
  intro fuel node ref st
  cases fuel <;> rfl

/-- C8: indexing an array with an integer index returns the stored
element when `0 ≤ i < length`, and the NULL singleton — not an Error
object — when the index is negative or at least the length. -/
theorem c8_array_index :
    ∀ (aid : Nat) (elems : List (Option Obj)) (iid : Nat) (idx : Int)
      (st : State),
      evalIndexExpression (some (.array aid elems)) (some (.integer iid idx))
          st =
        .ok (if 0 ≤ idx ∧ idx < (elems.length : Int)
             then elems.getD idx.toNat none
             else some NULL) st := by
  intro aid elems iid idx st
  show evalArrayIndexExpression elems idx st = _
  rw [show evalArrayIndexExpression elems idx st =
      (if idx < 0 ∨ (elems.length : Int) - 1 < idx then .ok (some NULL) st
       else .ok (elems.getD idx.toNat none) st) from rfl]
  split_ifs with h1 h2 <;> first | rfl | omega

/-- C6: the if-expression truthiness rule makes exactly NULL and FALSE
falsy (integer zero and every other value are truthy), and an
if-expression with a non-error condition value takes the consequence
block when truthy, the alternative block when falsy and present, and
yields NULL when falsy with no alternative, both branches running in
the same environment frame. -/
theorem c6_if_truthiness :
    (∀ v : Obj, isTruthy (some v) = false ↔ v = NULL ∨ v = FALSE)
    ∧ (∀ (fuel : Nat) (cond : Expr) (conseq : List Stmt)
         (alt : Option (List Stmt)) (ref : Nat) (st : State)
         (v : Option Obj) (st1 : State),
         Eval false fuel (.expr cond) ref st = .ok v st1 →
         isError v = false →
         Eval false (fuel + 1) (.expr (.ifExpr cond conseq alt)) ref st =
           if isTruthy v then Eval false fuel (.block conseq) ref st1
           else
             match alt with
             | some a => Eval false fuel (.block a) ref st1
             | none => .ok (some NULL) st1) := by
  constructor
  · intro v
    cases v <;> simp [isTruthy, NULL, FALSE]
  · intro fuel cond conseq alt ref st v st1 h herr
    rw [evalStep_ifExpr]
    unfold evalIfExpression
    rw [h]
    simp [herr]

theorem c6_if_truthiness_witness :
    Eval false 6 (.expr (.ifExpr (.boolLit true) [.exprStmt (.intLit 1)]
        none)) 0 initState =
      Eval false 5 (.block [.exprStmt (.intLit 1)]) 0 initState := by
  have h := c6_if_truthiness.2 5 (.boolLit true) [.exprStmt (.intLit 1)]
    none 0 initState (some TRUE) initState rfl rfl
  simpa [isTruthy, TRUE] using h

/-- C7: on 64-bit operands with a nonzero divisor, the infix
expressions `a + b`, `a - b`, `a * b`, `a / b` evaluate to Integer
objects holding the native signed 64-bit results: the wrapped sum,
difference and product, and the wrapped truncated-toward-zero
quotient. -/
theorem c7_integer_arithmetic :
    ∀ a b : Int, -(2 ^ 63) ≤ a → a < 2 ^ 63 → -(2 ^ 63) ≤ b → b < 2 ^ 63 →
      b ≠ 0 →
      resultInt (Eval false 3 (.expr (.infixExpr "+" (.intLit a) (.intLit b)))
          0 initState) = some (wrap64 (a + b))
      ∧ resultInt (Eval false 3 (.expr (.infixExpr "-" (.intLit a)
          (.intLit b))) 0 initState) = some (wrap64 (a - b))
      ∧ resultInt (Eval false 3 (.expr (.infixExpr "*" (.intLit a)
          (.intLit b))) 0 initState) = some (wrap64 (a * b))
      ∧ resultInt (Eval false 3 (.expr (.infixExpr "/" (.intLit a)
          (.intLit b))) 0 initState) = some (wrap64 (Int.tdiv a b)) := by
  intro a b h1 h2 h3 h4 hb
  refine ⟨rfl, rfl, rfl, ?_⟩
  rw [show Eval false 3 (.expr (.infixExpr "/" (.intLit a) (.intLit b))) 0
        initState =
      (if b = 0 then Res.panicked
       else .ok (some (.integer 2 (wrap64 (Int.tdiv a b)))) ⟨[⟨[], none⟩], 3⟩)
      from rfl]
  rw [if_neg hb]
  rfl

theorem c7_integer_arithmetic_witness :
    resultInt (Eval false 3 (.expr (.infixExpr "+" (.intLit 7) (.intLit 2)))
        0 initState) = some 9
    ∧ resultInt (Eval false 3 (.expr (.infixExpr "-" (.intLit 7) (.intLit 2)))
        0 initState) = some 5
    ∧ resultInt (Eval false 3 (.expr (.infixExpr "*" (.intLit 7) (.intLit 2)))
        0 initState) = some 14
    ∧ resultInt (Eval false 3 (.expr (.infixExpr "/" (.intLit 7) (.intLit 2)))
        0 initState) = some 3 := by
  obtain ⟨w1, w2, w3, w4⟩ := c7_integer_arithmetic 7 2 (by decide) (by decide)
    (by decide) (by decide) (by decide)
  exact ⟨w1.trans (by decide), w2.trans (by decide), w3.trans (by decide),
    w4.trans (by decide)⟩

/-- C10: on operand pairs that are not both integers, `==` and `!=`
compare the two evaluated objects by reference identity and never
yield an error; Boolean and Null operands thereby compare by value
(they are shared singletons); a mismatched-kind pair yields FALSE for
`==` and TRUE for `!=`; and two separately evaluated strings with
equal contents (`"a" == "a"`) compare as not equal. -/
theorem c10_identity_equality :
    (∀ (l r : Obj) (st : State),
       ¬(l.typeTag = "INTEGER" ∧ r.typeTag = "INTEGER") →
       evalInfixExpression "==" (some l) (some r) st =
         .ok (some (nativeBoolToBooleanObject (refEq l r))) st
       ∧ evalInfixExpression "!=" (some l) (some r) st =
         .ok (some (nativeBoolToBooleanObject (!refEq l r))) st)
    ∧ (∀ b1 b2 : Bool, refEq (.boolean b1) (.boolean b2) = (b1 == b2))
    ∧ refEq .null .null = true
    ∧ (∀ (l r : Obj) (st : State), l.typeTag ≠ r.typeTag →
        evalInfixExpression "==" (some l) (some r) st = .ok (some FALSE) st
        ∧ evalInfixExpression "!=" (some l) (some r) st = .ok (some TRUE) st)
    ∧ resultBool (Eval false 5 (.prog stringIdentityProgram) 0 initState) =
        some false := by
  refine ⟨?_, fun b1 b2 => rfl, rfl, ?_, rfl⟩
  · intro l r st hnot
    constructor <;>
      cases l <;> cases r <;> first | rfl | exact absurd ⟨rfl, rfl⟩ hnot
  · intro l r st hne
    constructor <;>
      cases l <;> cases r <;>
        first | rfl | exact absurd rfl hne

theorem c10_identity_equality_witness :
    evalInfixExpression "==" (some TRUE) (some (Obj.string 0 "x"))
        initState =
      .ok (some (nativeBoolToBooleanObject (refEq TRUE (Obj.string 0 "x"))))
        initState
    ∧ evalInfixExpression "!=" (some TRUE) (some (Obj.string 0 "x"))
        initState =
      .ok (some (nativeBoolToBooleanObject (!refEq TRUE (Obj.string 0 "x"))))
        initState :=
  c10_identity_equality.1 TRUE (Obj.string 0 "x") initState (by decide)

theorem evalProgram_cons (evalF : Node → Nat → State → Outcome) (s : Stmt)
    (rest : List Stmt) (last : Option Obj) (ref : Nat) (st : State) :
    evalProgram evalF (s :: rest) last ref st =
      (match evalF (.stmt s) ref st with
       | .ok result st1 =>
         match result with
         | some (.returnValue _ v) => .ok v st1
         | some (.error m) => .ok (some (.error m)) st1
         | _ => evalProgram evalF rest result ref st1
       | o => o) := rfl

theorem evalBlockStatement_cons (evalF : Node → Nat → State → Outcome)
    (s : Stmt) (rest : List Stmt) (last : Option Obj) (ref : Nat)
    (st : State) :
    evalBlockStatement evalF (s :: rest) last ref st =
      (match evalF (.stmt s) ref st with
       | .ok result st1 =>
         match result with
         | some (.returnValue i v) => .ok (some (.returnValue i v)) st1
         | some (.error m) => .ok (some (.error m)) st1
         | _ => evalBlockStatement evalF rest result ref st1
       | o => o) := rfl

/-- C2 counterexample: for the program `return 5;` the single
statement's result is a RETURN_VALUE wrapper, but the program
sequence's result is the unwrapped INTEGER — the statement's result is
not what the Program sequence propagates. -/
theorem c2_program_unwraps_counterexample :
    resultTag (Eval false 10 (.prog [.returnStmt (.intLit 5)]) 0 initState) =
      some "INTEGER"
    ∧ resultTag (Eval false 9 (.stmt (.returnStmt (.intLit 5))) 0 initState) =
      some "RETURN_VALUE"
    ∧ ("INTEGER" : String) ≠ "RETURN_VALUE" := ⟨rfl, rfl, by decide⟩

/-- C2 (amended): statements run in order and a ReturnValue or Error
statement result stops the sequence immediately — a BlockStatement
propagates that result unchanged, while a Program propagates an Error
unchanged but unwraps a ReturnValue to its inner value; a sequence
whose last statement yields a normal result yields that result. -/
theorem c2_sequence_short_circuit :
    (∀ (fuel : Nat) (s : Stmt) (rest : List Stmt) (ref : Nat)
       (st st1 : State) (i : Nat) (v : Option Obj),
       Eval false fuel (.stmt s) ref st = .ok (some (.returnValue i v)) st1 →
       Eval false (fuel + 1) (.prog (s :: rest)) ref st = .ok v st1
       ∧ Eval false (fuel + 1) (.block (s :: rest)) ref st =
           .ok (some (.returnValue i v)) st1)
    ∧ (∀ (fuel : Nat) (s : Stmt) (rest : List Stmt) (ref : Nat)
         (st st1 : State) (m : String),
       Eval false fuel (.stmt s) ref st = .ok (some (.error m)) st1 →
       Eval false (fuel + 1) (.prog (s :: rest)) ref st =
           .ok (some (.error m)) st1
       ∧ Eval false (fuel + 1) (.block (s :: rest)) ref st =
           .ok (some (.error m)) st1)
    ∧ (∀ (fuel : Nat) (s : Stmt) (ref : Nat) (st st1 : State)
         (v : Option Obj),
       Eval false fuel (.stmt s) ref st = .ok v st1 →
       isNormalResult v = true →
       Eval false (fuel + 1) (.prog [s]) ref st = .ok v st1
       ∧ Eval false (fuel + 1) (.block [s]) ref st = .ok v st1) := by
  refine ⟨?_, ?_, ?_⟩
  · intro fuel s rest ref st st1 i v h
    constructor
    · rw [evalStep_prog, evalProgram_cons, h]
    · rw [evalStep_block, evalBlockStatement_cons, h]
  · intro fuel s rest ref st st1 m h
    constructor
    · rw [evalStep_prog, evalProgram_cons, h]
    · rw [evalStep_block, evalBlockStatement_cons, h]
  · intro fuel s ref st st1 v h hnorm
    constructor
    · rw [evalStep_prog, evalProgram_cons, h]
      cases v with
      | none => rfl
      | some o => cases o <;> first | rfl | simp [isNormalResult] at hnorm
    · rw [evalStep_block, evalBlockStatement_cons, h]
      cases v with
      | none => rfl
      | some o => cases o <;> rfl

theorem c2_sequence_short_circuit_witness :
    Eval false 10 (.prog [Stmt.returnStmt (.intLit 5),
        Stmt.exprStmt (.intLit 7)]) 0 initState =
      .ok (some (Obj.integer 0 5)) ⟨[⟨[], none⟩], 2⟩
    ∧ Eval false 10 (.block [Stmt.returnStmt (.intLit 5),
        Stmt.exprStmt (.intLit 7)]) 0 initState =
      .ok (some (Obj.returnValue 1 (some (Obj.integer 0 5)))) ⟨[⟨[], none⟩], 2⟩ :=
  c2_sequence_short_circuit.1 9 (Stmt.returnStmt (.intLit 5))
    [Stmt.exprStmt (.intLit 7)] 0 initState ⟨[⟨[], none⟩], 2⟩ 1
    (some (Obj.integer 0 5)) rfl

/-- C3 counterexample: the operands `1` and `"a"` have different kinds,
yet `==` on them yields the FALSE singleton — not a "type mismatch"
Error object — because the identity-comparison cases run before the
kind check. -/
theorem c3_mismatch_eq_counterexample :
    evalInfixExpression "==" (some (Obj.integer 0 1)) (some (Obj.string 1 "a"))
        initState = .ok (some FALSE) initState
    ∧ isError (some FALSE) = false := ⟨rfl, rfl⟩

/-- C3 (amended): operands of different kinds yield a "type mismatch"
Error for every operator except `==` and `!=` (which compare by
identity instead); a same-kind pair with an operator unsupported for
that kind — not integer arithmetic/comparison, not string `+`, and not
the universal `==`/`!=` — yields an "unknown operator" Error. -/
theorem c3_infix_error_classification :
    (∀ (l r : Obj) (op : String) (st : State),
       l.typeTag ≠ r.typeTag → op ≠ "==" → op ≠ "!=" →
       evalInfixExpression op (some l) (some r) st =
         .ok (some (newError ("type mismatch: " ++ l.typeTag ++ " " ++ op
           ++ " " ++ r.typeTag))) st)
    ∧ (∀ (l r : Obj) (op : String) (st : State),
       l.typeTag = r.typeTag → operatorSupported l.typeTag op = false →
       evalInfixExpression op (some l) (some r) st =
         .ok (some (newError ("unknown operator: " ++ l.typeTag ++ " " ++ op
           ++ " " ++ r.typeTag))) st) := by
  constructor
  · intro l r op st hne h2 h3
    cases l <;> cases r <;>
      first
        | exact absurd rfl hne
        | simp [evalInfixExpression, Obj.typeTag, h2, h3, String.append_assoc]
  · intro l r op st htag hsupp
    cases l <;> cases r <;>
      first
        | (simp [operatorSupported, Obj.typeTag] at hsupp
           simp [evalInfixExpression, evalIntegerInfixExpression,
             evalStringInfixExpression, Obj.typeTag, hsupp,
             String.append_assoc]
           done)
        | simp [Obj.typeTag] at htag

theorem c3_infix_error_classification_witness :
    evalInfixExpression "+" (some TRUE) (some Obj.null) initState =
      .ok (some (newError ("type mismatch: " ++ TRUE.typeTag ++ " " ++ "+"
        ++ " " ++ Obj.null.typeTag))) initState :=
  c3_infix_error_classification.1 TRUE Obj.null "+" initState (by decide)
    (by decide) (by decide)

/-- C4 counterexample: calling `fn(x) { x; }` with no arguments does
not bind `x` to an absent value and evaluate the body — it is a Go
runtime panic (out-of-range argument indexing). -/
theorem c4_missing_args_counterexample :
    isPanicOutcome (Eval false 20 (.prog missingArgProgram) 0 initState) =
      true := rfl

theorem bindParams_take (params : List String) :
    ∀ (args : List (Option Obj)) (ref idx : Nat) (st : State),
      bindParams (args.take (idx + params.length)) ref params idx st =
        bindParams args ref params idx st := by
  induction params with
  | nil => intro args ref idx st; rfl
  | cons p rest ih =>
    intro args ref idx st
    simp only [bindParams, List.length_cons]
    rw [List.get?_take (by omega : idx < idx + (rest.length + 1))]
    cases h : args.get? idx with
    | none => rfl
    | some a =>
      show bindParams (List.take (idx + (rest.length + 1)) args) ref rest
          (idx + 1) (st.envSet ref p a) =
        bindParams args ref rest (idx + 1) (st.envSet ref p a)
      rw [show idx + (rest.length + 1) = (idx + 1) + rest.length from by omega]
      exact ih args ref (idx + 1) (st.envSet ref p a)

theorem bindParams_short (params : List String) :
    ∀ (args : List (Option Obj)) (ref idx : Nat) (st : State),
      args.length < idx + params.length → idx ≤ args.length →
      bindParams args ref params idx st = none := by
  induction params with
  | nil =>
    intro args ref idx st h1 h2
    simp only [List.length_nil, Nat.add_zero] at h1
    omega
  | cons p rest ih =>
    intro args ref idx st h1 h2
    simp only [List.length_cons] at h1
    simp only [bindParams]
    cases h : args.get? idx with
    | none => rfl
    | some a =>
      obtain ⟨hlt, -⟩ := List.get?_eq_some.mp h
      exact ih args ref (idx + 1) (st.envSet ref p a) (by omega) (by omega)

/-- C4 (amended): calls are not arity-checked, and excess arguments are
ignored — parameter binding depends only on the first
`params.length` arguments, and a call with one parameter and two
arguments evaluates the body normally — but a call with fewer
arguments than parameters hits an out-of-range argument index (a Go
runtime panic, `extendFunctionEnv` fails); missing parameters are not
bound to an absent or zero value. -/
theorem c4_arity_behaviour :
    (∀ (params : List String) (fnRef : Nat) (args : List (Option Obj))
       (st : State),
       extendFunctionEnv params fnRef (args.take params.length) st =
         extendFunctionEnv params fnRef args st)
    ∧ (∀ (params : List String) (fnRef : Nat) (args : List (Option Obj))
         (st : State),
       args.length < params.length →
       extendFunctionEnv params fnRef args st = none)
    ∧ resultInt (Eval false 20 (.prog excessArgProgram) 0 initState) =
        some 1 := by
  refine ⟨?_, ?_, rfl⟩
  · intro params fnRef args st
    have h := bindParams_take params args st.envs.length 0
      ⟨st.envs ++ [⟨[], some fnRef⟩], st.nextId⟩
    rw [Nat.zero_add] at h
    show (match bindParams (args.take params.length) st.envs.length params 0
        ⟨st.envs ++ [⟨[], some fnRef⟩], st.nextId⟩ with
      | some st2 => some (st2, st.envs.length)
      | none => none) =
      (match bindParams args st.envs.length params 0
        ⟨st.envs ++ [⟨[], some fnRef⟩], st.nextId⟩ with
      | some st2 => some (st2, st.envs.length)
      | none => none)
    rw [h]
  · intro params fnRef args st hlen
    have hsh := bindParams_short params args st.envs.length 0
      (⟨st.envs ++ [⟨[], some fnRef⟩], st.nextId⟩ : State) (by omega) (by omega)
    show (match bindParams args st.envs.length params 0
        ⟨st.envs ++ [⟨[], some fnRef⟩], st.nextId⟩ with
      | some st2 => some (st2, st.envs.length)
      | none => none) = none
    rw [hsh]

theorem c4_arity_behaviour_witness :
    extendFunctionEnv ["x"] 0 [] initState = none :=
  c4_arity_behaviour.2.1 ["x"] 0 [] initState (by decide)

/-- C9 counterexample: in
`let x = if (true) { let y = 1; 1 - "a"; };` the value expression
evaluates to a "type mismatch" Error which is propagated and `x` is
not bound — but the environment is not unchanged: evaluating the value
expression ran the if-consequence in the same frame and its inner
`let y = 1` binding survives. -/
theorem c9_let_error_counterexample :
    resultErrMsg (Eval false 20 (.prog letAfterSideEffectProgram) 0
        initState) = some "type mismatch: INTEGER - STRING"
    ∧ rootBindingNames (Eval false 20 (.prog letAfterSideEffectProgram) 0
        initState) = some ["y"]
    ∧ initState.envs.map (fun e => e.table.map (·.1)) = [[]]
    ∧ (["y"] : List String) ≠ [] := ⟨rfl, rfl, rfl, by decide⟩

/-- C9 (amended): a let statement evaluates its value expression
first; on a non-error result the name is bound in the current frame of
the state the value evaluation produced; on an Error result that error
is the statement's result, the name is not bound, and the state is
exactly the one the value-expression evaluation left (which may itself
contain bindings made during that evaluation). -/
theorem c9_let_binding_discipline :
    (∀ (fuel : Nat) (name : String) (e : Expr) (ref : Nat) (st st1 : State)
       (m : String),
       Eval false fuel (.expr e) ref st = .ok (some (.error m)) st1 →
       Eval false (fuel + 1) (.stmt (.letStmt name e)) ref st =
         .ok (some (.error m)) st1)
    ∧ (∀ (fuel : Nat) (name : String) (e : Expr) (ref : Nat) (st st1 : State)
         (v : Option Obj),
       Eval false fuel (.expr e) ref st = .ok v st1 →
       isError v = false →
       Eval false (fuel + 1) (.stmt (.letStmt name e)) ref st =
         .ok none (st1.envSet ref name v)) := by
  constructor
  · intro fuel name e ref st st1 m h
    rw [evalStep_letStmt, h]
    rfl
  · intro fuel name e ref st st1 v h herr
    rw [evalStep_letStmt, h]
    simp [herr]

theorem c9_let_binding_discipline_witness :
    Eval false 2 (.stmt (.letStmt "z" (.intLit 4))) 0 initState =
      .ok none ((⟨[⟨[], none⟩], 1⟩ : State).envSet 0 "z"
        (some (Obj.integer 0 4))) :=
  c9_let_binding_discipline.2 1 "z" (.intLit 4) 0 initState
    ⟨[⟨[], none⟩], 1⟩ (some (Obj.integer 0 4)) rfl rfl

end Alp
